import Mathlib

/-!
Verification of the PropertyInvestmentCalculator portfolio simulation engine.

This development is a shallow embedding of the repository's core engine:
  * `back/core/main.py`       — investment-profile data model and derived formulas
  * `back/core/strategies.py` — the monthly portfolio simulator

Conventions of the embedding:
  * Python floats are modelled as rationals (`ℚ`); all the control flow of the
    engine consists of comparisons and field arithmetic, which ℚ reproduces
    exactly.
  * Python's truthiness-based defaulting `x or d` (which replaces both `None`
    and `0` by `d`) is modelled by `orQ` / `orN`.
  * Python's `int()` truncation toward zero on a float is `pyInt`.
  * Python `%` on ints is `Int.emod`, which agrees with Python's semantics for
    all nonzero moduli.  (Python raises `ZeroDivisionError` for a zero modulus;
    those crashing runs are outside the scope of the theorems below.)
  * The financing-type strings `"cash"` / `f"{int(ratio*100)}%_leverage"` are
    modelled by the inductive `FinLabel`; the engine only ever tests the label
    against `"cash"`.
  * The human-readable `end_reason` f-strings are modelled structurally by
    `EndReason`, carrying exactly the numbers interpolated into the message.
  * The per-period yield computations (`_calculate_annual_yields`,
    `_calculate_portfolio_yields`) use real-number exponentiation
    (`** (1/years_held)`) and are pure output decoration: they read the state
    and never feed back into it.  They are omitted from the snapshot embedding;
    no claim below mentions a yield field.
  * The `while True` reinvestment loop of `_apply_reinvestment` terminates in
    Python only because cash strictly decreases while it buys; it is modelled
    with an explicit fuel parameter.  The engine runs it with fuel 1000; all
    theorems are either fuel-generic or evaluated on runs that buy far fewer
    than 1000 properties in one month, where the fuelled function coincides
    with the Python loop.
-/

namespace PropertyCalc

/-- Python `x or d` on an optional float: `None` and `0.0` both yield `d`. -/
def orQ (x : Option ℚ) (d : ℚ) : ℚ :=
  match x with
  | none => d
  | some v => if v = 0 then d else v

/-- Python `x or d` on an optional int: `None` and `0` both yield `d`. -/
def orN (x : Option ℕ) (d : ℕ) : ℕ :=
  match x with
  | none => d
  | some v => if v = 0 then d else v

/-- Python `int()` truncation toward zero of a float, on an exact rational. -/
def pyInt (q : ℚ) : ℤ := q.num / (q.den : ℤ)

/-! ## Data model (`back/core/main.py`) -/

inductive FinancingType
  | cash
  | leveraged
  deriving DecidableEq, Repr

/-- `PropertyAcquisitionCosts` (main.py). -/
structure PropertyAcquisitionCosts where
  purchase_price : ℚ
  transfer_duty : ℚ
  conveyancing_fees : ℚ
  bond_registration : ℚ
  furnishing_cost : Option ℚ := some 0
  deriving DecidableEq, Repr

namespace PropertyAcquisitionCosts

/-- `total_unfurnished_cost` property of `PropertyAcquisitionCosts`. -/
def total_unfurnished_cost (c : PropertyAcquisitionCosts) : ℚ :=
  c.purchase_price + c.transfer_duty + c.conveyancing_fees + c.bond_registration

/-- `total_furnished_cost` property: unfurnished + `(furnishing_cost or 0)`. -/
def total_furnished_cost (c : PropertyAcquisitionCosts) : ℚ :=
  c.total_unfurnished_cost + orQ c.furnishing_cost 0

end PropertyAcquisitionCosts

/-- `FinancingParameters` (main.py). -/
structure FinancingParameters where
  ltv_ratio : ℚ
  financing_type : FinancingType
  appreciation_rate : ℚ
  interest_rate : Option ℚ := none
  loan_term_years : Option ℕ := some 20
  deriving DecidableEq, Repr

/-- `OperatingParameters` (main.py). -/
structure OperatingParameters where
  monthly_rental_income : ℚ
  vacancy_rate : ℚ
  monthly_levies : ℚ
  property_management_fee_rate : ℚ
  monthly_insurance : ℚ
  monthly_maintenance_reserve : ℚ
  monthly_furnishing_repair_costs : Option ℚ := some 0
  deriving DecidableEq, Repr

namespace OperatingParameters

/-- `effective_monthly_rental`: rent adjusted for vacancy. -/
def effective_monthly_rental (o : OperatingParameters) : ℚ :=
  o.monthly_rental_income * (1 - o.vacancy_rate)

/-- `monthly_management_fee`: fee on vacancy-adjusted rent. -/
def monthly_management_fee (o : OperatingParameters) : ℚ :=
  o.effective_monthly_rental * o.property_management_fee_rate

/-- `total_monthly_expenses`. -/
def total_monthly_expenses (o : OperatingParameters) : ℚ :=
  o.monthly_levies + o.monthly_management_fee + o.monthly_insurance +
    o.monthly_maintenance_reserve + orQ o.monthly_furnishing_repair_costs 0

/-- `annual_rental_income`: gross rent before vacancy. -/
def annual_rental_income (o : OperatingParameters) : ℚ :=
  o.monthly_rental_income * 12

end OperatingParameters

inductive RefineFrequency
  | never
  | annually
  | bi_annually
  | quarterly
  deriving DecidableEq, Repr

/-- `InvestmentStrategy` (main.py). -/
structure InvestmentStrategy where
  available_investment_amount : ℚ
  reinvest_cashflow : Bool := true
  enable_refinancing : Bool := false
  refinance_frequency : RefineFrequency := .never
  target_refinance_ltv : Option ℚ := none
  deriving DecidableEq, Repr

/-- `PropertyInvestment` (main.py). -/
structure PropertyInvestment where
  acquisition_costs : PropertyAcquisitionCosts
  financing : FinancingParameters
  operating : OperatingParameters
  strategy : InvestmentStrategy
  deriving DecidableEq, Repr

namespace PropertyInvestment

/-- `initial_cash_required` property of `PropertyInvestment`. -/
def initial_cash_required (p : PropertyInvestment) : ℚ :=
  match p.financing.financing_type with
  | .cash => p.acquisition_costs.total_furnished_cost
  | .leveraged =>
      p.acquisition_costs.total_furnished_cost -
        p.acquisition_costs.purchase_price * p.financing.ltv_ratio

/-- The standard fixed-payment amortization formula used throughout the code:
`L·r(1+r)^n / ((1+r)^n − 1)` with the `r = 0 → L/n` special case. -/
def pmtFormula (loanAmount monthlyRate : ℚ) (numPayments : ℕ) : ℚ :=
  if monthlyRate = 0 then loanAmount / (numPayments : ℚ)
  else
    loanAmount * (monthlyRate * (1 + monthlyRate) ^ numPayments) /
      ((1 + monthlyRate) ^ numPayments - 1)

/-- `monthly_bond_payment` property of `PropertyInvestment`: `None` for cash
financing; for leveraged financing it raises `ValueError` when the interest
rate or loan term is absent (modelled as `.error`). -/
def monthly_bond_payment (p : PropertyInvestment) : Except String (Option ℚ) :=
  match p.financing.financing_type with
  | .cash => .ok none
  | .leveraged =>
      match p.financing.interest_rate, p.financing.loan_term_years with
      | some rate, some term =>
          .ok (some (pmtFormula
            (p.acquisition_costs.purchase_price * p.financing.ltv_ratio)
            (rate / 12) (term * 12)))
      | _, _ => .error "Interest rate and loan term must be provided for leveraged financing"

end PropertyInvestment

/-! ## Strategy configuration (`back/core/strategies.py`) -/

inductive StrategyType
  | cash_only
  | leveraged
  | mixed
  deriving DecidableEq, Repr

inductive TrackingFrequency
  | monthly
  | yearly
  deriving DecidableEq, Repr

inductive FirstPropertyType
  | cash
  | leveraged
  deriving DecidableEq, Repr

inductive AdditionalCapitalFrequency
  | monthly
  | quarterly
  | yearly
  | five_yearly
  | one_time
  deriving DecidableEq, Repr

/-- `AdditionalCapitalInjection` (strategies.py). -/
structure AdditionalCapitalInjection where
  amount : ℚ
  frequency : AdditionalCapitalFrequency
  start_period : ℕ := 1
  end_period : Option ℕ := none
  specific_periods : Option (List ℕ) := none
  deriving DecidableEq, Repr

/-- `StrategyConfig` (strategies.py). -/
structure StrategyConfig where
  strategy_type : StrategyType
  simulation_months : ℕ
  leverage_ratio : ℚ := 0
  cash_ratio : ℚ := 1
  leveraged_property_ratio : ℚ := 0
  cash_property_ratio : ℚ := 1
  first_property_type : FirstPropertyType := .cash
  enable_refinancing : Bool := false
  refinance_frequency_years : ℚ := 1
  enable_reinvestment : Bool := true
  tracking_frequency : TrackingFrequency := .monthly
  additional_capital_injections : Option (List AdditionalCapitalInjection) := none
  deriving DecidableEq, Repr

/-- The financing-type string of a property: `"cash"` or
`f"{int(ratio*100)}%_leverage"`; only the truncated percentage and the
distinction from `"cash"` are ever consumed. -/
inductive FinLabel
  | cash
  | leverage (pct : ℤ)
  deriving DecidableEq, Repr, Inhabited

/-- `PropertyData` (strategies.py). -/
structure PropertyData where
  property_id : ℕ
  purchase_price : ℚ
  current_value : ℚ
  loan_amount : ℚ
  monthly_payment : ℚ
  financing_type : FinLabel
  months_owned : ℕ
  annual_rental_income : ℚ
  annual_expenses : ℚ
  monthly_cashflow : ℚ
  cost_basis : ℚ
  deriving DecidableEq, Repr, Inhabited

/-- `RefinancingEvent` (strategies.py). -/
structure RefinancingEvent where
  property_id : ℕ
  property_value : ℚ
  old_loan_amount : ℚ
  new_loan_amount : ℚ
  cash_extracted : ℚ
  new_ltv : ℚ
  deriving DecidableEq, Repr, Inhabited

/-- `PropertyPurchase` (strategies.py). -/
structure PropertyPurchase where
  property_id : ℕ
  purchase_price : ℚ
  cash_required : ℚ
  financing_type : FinLabel
  loan_amount : ℚ
  deriving DecidableEq, Repr

/-- `CapitalInjectionEvent` (strategies.py); `source` is the cadence label. -/
structure CapitalInjectionEvent where
  amount : ℚ
  source : AdditionalCapitalFrequency
  total_additional_capital_to_date : ℚ
  deriving DecidableEq, Repr

/-- The `end_reason` strings, modelled structurally with the interpolated
numbers. -/
inductive EndReason
  | insufficientFirstProperty (need have_ : ℚ)
  | operatingDeficit (deficit cash : ℚ)
  deriving DecidableEq, Repr

/-- `SimulationSnapshot` (strategies.py), minus the two yield fields (pure
output decoration with no feedback into the state; see the file header). -/
structure SimulationSnapshot where
  period : ℕ
  properties : List PropertyData
  total_property_value : ℚ
  total_debt : ℚ
  total_equity : ℚ
  cash_available : ℚ
  monthly_cashflow : ℚ
  annual_cashflow : ℚ
  total_cash_invested : ℚ
  total_additional_capital_injected : ℚ
  refinancing_events : List RefinancingEvent
  property_purchases : List PropertyPurchase
  capital_injections : List CapitalInjectionEvent
  simulation_ended : Bool
  end_reason : Option EndReason
  deriving DecidableEq, Repr, Inhabited

/-- The mutable portfolio dictionary threaded through the simulator. -/
structure Portfolio where
  properties : List PropertyData
  cash_available : ℚ
  property_counter : ℕ
  total_additional_capital_injected : ℚ
  /-- `portfolio["initial_cash_required"]`; only present (and only read) when
  the first property was bought, 0 in the empty-portfolio branch. -/
  initial_cash_required : ℚ
  deriving DecidableEq, Repr

/-- The simulator's own mutable fields (`simulation_ended`, `end_reason`,
`total_additional_capital`). -/
structure SimState where
  simulation_ended : Bool
  end_reason : Option EndReason
  total_additional_capital : ℚ
  deriving DecidableEq, Repr

/-! ## The simulator (`PropertyPortfolioSimulator`, strategies.py) -/

/-- The financing-type string `f"{int(ratio*100)}%_leverage"`. -/
def leverageLabel (ratio : ℚ) : FinLabel := .leverage (pyInt (ratio * 100))

/-- `_calculate_monthly_payment`: note that `interest_rate or 0.105` replaces
both a missing and a zero rate by 10.5%, and `loan_term_years or 20` replaces
both a missing and a zero term by 20 years. -/
def calculateMonthlyPayment (base : PropertyInvestment) (loanAmount : ℚ) : ℚ :=
  if loanAmount ≤ 0 then 0
  else
    PropertyInvestment.pmtFormula loanAmount
      (orQ base.financing.interest_rate 0.105 / 12)
      (orN base.financing.loan_term_years 20 * 12)

/-- `_calculate_annual_expenses`: management fee is charged on gross (not
vacancy-adjusted) annual rent here. -/
def calculateAnnualExpenses (base : PropertyInvestment) : ℚ :=
  base.operating.monthly_levies * 12 +
    base.operating.annual_rental_income * base.operating.property_management_fee_rate +
    base.operating.monthly_insurance * 12 +
    base.operating.monthly_maintenance_reserve * 12 +
    orQ base.operating.monthly_furnishing_repair_costs 0 * 12

/-- `self.base_property.monthly_bond_payment or 0.0`.  The `ValueError` path
(leveraged profile with no interest rate or no term) crashes the Python run;
it is mapped to 0 here and never reached by any theorem below. -/
def bondOr0 (base : PropertyInvestment) : ℚ :=
  match base.monthly_bond_payment with
  | .ok (some b) => b
  | _ => 0

/-- `_calculate_monthly_cashflow` (base-property template cash flow). -/
def calculateMonthlyCashflow (base : PropertyInvestment) : ℚ :=
  base.operating.monthly_rental_income * (1 - base.operating.vacancy_rate) -
    (base.operating.monthly_levies +
      base.operating.monthly_rental_income * base.operating.property_management_fee_rate +
      base.operating.monthly_insurance +
      base.operating.monthly_maintenance_reserve +
      orQ base.operating.monthly_furnishing_repair_costs 0) -
    bondOr0 base

/-- `_initialize_portfolio`: buys property 0 or marks the run terminated. -/
def initializePortfolio (base : PropertyInvestment) (strat : StrategyConfig) :
    Portfolio × SimState :=
  let (financing_type, loan_amount, monthly_payment) :=
    match strat.strategy_type with
    | .cash_only => (FinLabel.cash, (0 : ℚ), (0 : ℚ))
    | .leveraged =>
        let loan := base.acquisition_costs.purchase_price * strat.leverage_ratio
        (leverageLabel strat.leverage_ratio, loan, calculateMonthlyPayment base loan)
    | .mixed =>
        match strat.first_property_type with
        | .cash => (FinLabel.cash, (0 : ℚ), (0 : ℚ))
        | .leveraged =>
            let loan := base.acquisition_costs.purchase_price * strat.leverage_ratio
            (leverageLabel strat.leverage_ratio, loan, calculateMonthlyPayment base loan)
  let cash_required :=
    if financing_type = FinLabel.cash then
      base.acquisition_costs.total_unfurnished_cost +
        orQ base.acquisition_costs.furnishing_cost 0
    else
      base.acquisition_costs.purchase_price * (1 - strat.leverage_ratio) +
        base.acquisition_costs.transfer_duty +
        base.acquisition_costs.conveyancing_fees +
        base.acquisition_costs.bond_registration +
        orQ base.acquisition_costs.furnishing_cost 0
  let available_cash := base.strategy.available_investment_amount
  if available_cash < cash_required then
    ({ properties := [], cash_available := available_cash, property_counter := 0,
       total_additional_capital_injected := 0, initial_cash_required := 0 },
     { simulation_ended := true,
       end_reason := some (.insufficientFirstProperty cash_required available_cash),
       total_additional_capital := 0 })
  else
    ({ properties := [{
         property_id := 0,
         purchase_price := base.acquisition_costs.purchase_price,
         current_value := base.acquisition_costs.purchase_price,
         loan_amount := loan_amount,
         monthly_payment := monthly_payment,
         financing_type := financing_type,
         months_owned := 0,
         annual_rental_income := base.operating.annual_rental_income,
         annual_expenses := calculateAnnualExpenses base,
         monthly_cashflow := calculateMonthlyCashflow base,
         cost_basis := cash_required }],
       cash_available := available_cash - cash_required,
       property_counter := 1,
       total_additional_capital_injected := 0,
       initial_cash_required := cash_required },
     { simulation_ended := false, end_reason := none, total_additional_capital := 0 })

/-- `_apply_appreciation` on one property. -/
def appreciateProp (base : PropertyInvestment) (p : PropertyData) : PropertyData :=
  { p with current_value := p.current_value * (1 + base.financing.appreciation_rate / 12),
           months_owned := p.months_owned + 1 }

/-- `_apply_appreciation`. -/
def applyAppreciation (base : PropertyInvestment) (pf : Portfolio) : Portfolio :=
  { pf with properties := pf.properties.map (appreciateProp base) }

/-- The per-property body of `_apply_monthly_operations`: amortize the loan and
recompute the property's monthly cash flow (vacancy-adjusted rent, expenses,
debt service). -/
def amortizeProp (base : PropertyInvestment) (p : PropertyData) : PropertyData :=
  let newLoan :=
    if 0 < p.loan_amount ∧ 0 < p.monthly_payment then
      let monthly_rate := orQ base.financing.interest_rate 0.105 / 12
      let principal := min (p.monthly_payment - p.loan_amount * monthly_rate) p.loan_amount
      max 0 (p.loan_amount - principal)
    else p.loan_amount
  let cf := p.annual_rental_income / 12 * (1 - base.operating.vacancy_rate) -
    p.annual_expenses / 12 - p.monthly_payment
  { p with loan_amount := newLoan, monthly_cashflow := cf }

/-- `_apply_monthly_operations`. -/
def applyMonthlyOperations (base : PropertyInvestment) (pf : Portfolio) : Portfolio :=
  let props := pf.properties.map (amortizeProp base)
  { pf with properties := props,
            cash_available := pf.cash_available + (props.map (·.monthly_cashflow)).sum }

/-- `_calculate_monthly_operating_deficit`: sums, over the properties whose
gross monthly rent falls short of expenses plus debt service, that shortfall. -/
def calculateMonthlyOperatingDeficit (pf : Portfolio) : ℚ :=
  (pf.properties.map fun p =>
    let d := p.annual_expenses / 12 + p.monthly_payment - p.annual_rental_income / 12
    if 0 < d then d else 0).sum

/-- `int(self.strategy.refinance_frequency_years * 12)`. -/
def refinanceFreqMonths (strat : StrategyConfig) : ℤ :=
  pyInt (strat.refinance_frequency_years * 12)

/-- `_should_refinance`: a single, portfolio-wide cadence test on the month
number (Python's `%` and Lean's `emod` agree on the `== 0` test). -/
def shouldRefinance (strat : StrategyConfig) (month : ℕ) : Bool :=
  (month : ℤ) % refinanceFreqMonths strat == 0

/-- The per-property body of `_apply_refinancing`: returns the updated
property, an event if one fired, and the cash extracted. -/
def refinanceProp (base : PropertyInvestment) (p : PropertyData) :
    PropertyData × Option RefinancingEvent × ℚ :=
  let target_ltv := orQ base.strategy.target_refinance_ltv 0.6
  if p.financing_type ≠ FinLabel.cash ∧ 0 < p.current_value then
    let max_new_loan := p.current_value * target_ltv
    let cash_extracted := max 0 (max_new_loan - p.loan_amount)
    if 10000 < cash_extracted then
      let ev : RefinancingEvent := {
        property_id := p.property_id,
        property_value := p.current_value,
        old_loan_amount := p.loan_amount,
        new_loan_amount := max_new_loan,
        cash_extracted := cash_extracted,
        new_ltv := target_ltv }
      let payment :=
        if 0 < max_new_loan then
          PropertyInvestment.pmtFormula max_new_loan
            (orQ base.financing.interest_rate 0.105 / 12)
            (orN base.financing.loan_term_years 20 * 12)
        else 0
      ({ p with loan_amount := max_new_loan, monthly_payment := payment }, some ev,
        cash_extracted)
    else (p, none, 0)
  else (p, none, 0)

/-- `_apply_refinancing` over the property list: updated list, events in
property order, and total cash extracted. -/
def refinanceList (base : PropertyInvestment) :
    List PropertyData → List PropertyData × List RefinancingEvent × ℚ
  | [] => ([], [], 0)
  | p :: rest =>
      let hd := refinanceProp base p
      let tl := refinanceList base rest
      (hd.1 :: tl.1, hd.2.1.toList ++ tl.2.1, hd.2.2 + tl.2.2)

/-- `_apply_refinancing`. -/
def applyRefinancing (base : PropertyInvestment) (pf : Portfolio) :
    Portfolio × List RefinancingEvent :=
  let r := refinanceList base pf.properties
  ({ pf with properties := r.1, cash_available := pf.cash_available + r.2.2 }, r.2.1)

/-- `_should_use_leverage_for_next_property`: for the mixed strategy the next
acquisition is leveraged exactly when the leveraged fraction's deficit to its
target strictly exceeds the cash fraction's deficit to its target. -/
def shouldUseLeverageForNextProperty (strat : StrategyConfig) (pf : Portfolio) : Bool :=
  match strat.strategy_type with
  | .cash_only => false
  | .leveraged => true
  | .mixed =>
      let n := pf.properties.length
      if n = 0 then strat.first_property_type = FirstPropertyType.leveraged
      else
        let leveraged_count := (pf.properties.filter
          (fun p => p.financing_type ≠ FinLabel.cash)).length
        let cash_count := n - leveraged_count
        let leverage_deficit := strat.leveraged_property_ratio - (leveraged_count : ℚ) / n
        let cash_deficit := strat.cash_property_ratio - (cash_count : ℚ) / n
        cash_deficit < leverage_deficit

/-- The cash required (and financing data) for the next property considered by
`_apply_reinvestment`; `price_ratio` is the constant `1.0` of the source. -/
def nextPropertyPlan (base : PropertyInvestment) (strat : StrategyConfig)
    (pf : Portfolio) : FinLabel × ℚ × ℚ :=
  let purchase_price := base.acquisition_costs.purchase_price
  let use_leverage := shouldUseLeverageForNextProperty strat pf
  let (financing_type, loan_amount, bond_registration, down_payment) :=
    if use_leverage then
      (leverageLabel strat.leverage_ratio,
        purchase_price * strat.leverage_ratio,
        base.acquisition_costs.bond_registration,
        purchase_price * (1 - strat.leverage_ratio))
    else (FinLabel.cash, (0 : ℚ), (0 : ℚ), purchase_price)
  let cash_required := down_payment + base.acquisition_costs.transfer_duty +
    base.acquisition_costs.conveyancing_fees + bond_registration +
    orQ base.acquisition_costs.furnishing_cost 0
  (financing_type, loan_amount, cash_required)

/-- One successful purchase step of `_apply_reinvestment` (the body executed
when `cash_available >= cash_required`). -/
def buyNextProperty (base : PropertyInvestment) (strat : StrategyConfig)
    (pf : Portfolio) : Portfolio × PropertyPurchase :=
  let plan := nextPropertyPlan base strat pf
  let financing_type := plan.1
  let loan_amount := plan.2.1
  let cash_required := plan.2.2
  let monthly_payment :=
    if 0 < loan_amount then
      PropertyInvestment.pmtFormula loan_amount
        (orQ base.financing.interest_rate 0.105 / 12)
        (orN base.financing.loan_term_years 20 * 12)
    else 0
  let new_property : PropertyData := {
    property_id := pf.property_counter,
    purchase_price := base.acquisition_costs.purchase_price,
    current_value := base.acquisition_costs.purchase_price,
    loan_amount := loan_amount,
    monthly_payment := monthly_payment,
    financing_type := financing_type,
    months_owned := 0,
    annual_rental_income := base.operating.annual_rental_income,
    annual_expenses := calculateAnnualExpenses base,
    monthly_cashflow := calculateMonthlyCashflow base,
    cost_basis := cash_required }
  ({ pf with properties := pf.properties ++ [new_property],
             cash_available := pf.cash_available - cash_required,
             property_counter := pf.property_counter + 1 },
   { property_id := new_property.property_id,
     purchase_price := base.acquisition_costs.purchase_price,
     cash_required := cash_required,
     financing_type := financing_type,
     loan_amount := loan_amount })

/-- `_apply_reinvestment`: buy while cash covers the next property.  The
Python `while True` loop terminates because cash strictly decreases on each
purchase; modelled with fuel (see the file header). -/
def applyReinvestment (base : PropertyInvestment) (strat : StrategyConfig) :
    Portfolio → ℕ → Portfolio × List PropertyPurchase
  | pf, 0 => (pf, [])
  | pf, fuel + 1 =>
      if (nextPropertyPlan base strat pf).2.2 ≤ pf.cash_available then
        let b := buyNextProperty base strat pf
        let rest := applyReinvestment base strat b.1 fuel
        (rest.1, b.2 :: rest.2)
      else (pf, [])

/-- `_should_inject_capital`: range test, then the cadence rule.  Python
truthiness quirks preserved: `end_period == 0` behaves like no end bound, and
an explicitly empty `specific_periods` list behaves like an absent one. -/
def shouldInjectCapital (cfg : AdditionalCapitalInjection) (month : ℕ) : Bool :=
  if month < cfg.start_period then false
  else if (match cfg.end_period with
           | none => false
           | some e => if e = 0 then false else decide (e < month)) then false
  else
    match cfg.frequency with
    | .one_time =>
        match cfg.specific_periods with
        | some ps => if ps = [] then month = cfg.start_period else ps.contains month
        | none => month = cfg.start_period
    | .monthly => true
    | .quarterly => (month - cfg.start_period) % 3 = 0
    | .yearly => (month - cfg.start_period) % 12 = 0
    | .five_yearly => (month - cfg.start_period) % 60 = 0

/-- The fold of `_apply_additional_capital_injections` over the rule list,
threading the simulator-level running total. -/
def injectList (month : ℕ) :
    List AdditionalCapitalInjection → Portfolio → ℚ →
      Portfolio × ℚ × List CapitalInjectionEvent
  | [], pf, total => (pf, total, [])
  | cfg :: rest, pf, total =>
      if shouldInjectCapital cfg month then
        let total' := total + cfg.amount
        let pf' := { pf with cash_available := pf.cash_available + cfg.amount,
                             total_additional_capital_injected := total' }
        let ev : CapitalInjectionEvent := {
          amount := cfg.amount, source := cfg.frequency,
          total_additional_capital_to_date := total' }
        let (pf'', total'', evs) := injectList month rest pf' total'
        (pf'', total'', ev :: evs)
      else injectList month rest pf total

/-- `_apply_additional_capital_injections` (a `None` rule list injects
nothing, exactly like an empty one). -/
def applyAdditionalCapitalInjections (strat : StrategyConfig) (pf : Portfolio)
    (total : ℚ) (month : ℕ) : Portfolio × ℚ × List CapitalInjectionEvent :=
  injectList month (strat.additional_capital_injections.getD []) pf total

/-- `_calculate_total_cash_invested`. -/
def calculateTotalCashInvested (pf : Portfolio) : ℚ :=
  (pf.properties.map (·.cost_basis)).sum

/-- `_create_detailed_snapshot` (the yearly and monthly branches build the
same record apart from the omitted yield fields). -/
def createDetailedSnapshot (pf : Portfolio) (period : ℕ)
    (refis : List RefinancingEvent) (purchases : List PropertyPurchase)
    (injections : List CapitalInjectionEvent) (sim : SimState) : SimulationSnapshot :=
  let total_property_value := (pf.properties.map (·.current_value)).sum
  let total_debt := (pf.properties.map (·.loan_amount)).sum
  let monthly_cashflow := (pf.properties.map (·.monthly_cashflow)).sum
  { period := period,
    properties := pf.properties,
    total_property_value := total_property_value,
    total_debt := total_debt,
    total_equity := total_property_value - total_debt,
    cash_available := pf.cash_available,
    monthly_cashflow := monthly_cashflow,
    annual_cashflow := monthly_cashflow * 12,
    total_cash_invested := calculateTotalCashInvested pf,
    total_additional_capital_injected := pf.total_additional_capital_injected,
    refinancing_events := refis,
    property_purchases := purchases,
    capital_injections := injections,
    simulation_ended := sim.simulation_ended,
    end_reason := sim.end_reason }

/-- The body of one iteration of the month loop of `_run_monthly_simulation`:
appreciation, amortization and rent, capital injections, the cash-sufficiency
check, refinancing, reinvestment, snapshot. -/
def stepMonth (base : PropertyInvestment) (strat : StrategyConfig)
    (sim : SimState) (pf : Portfolio) (month : ℕ) :
    SimState × Portfolio × SimulationSnapshot :=
  let pf2 := applyMonthlyOperations base (applyAppreciation base pf)
  let inj := applyAdditionalCapitalInjections strat pf2 sim.total_additional_capital month
  let pf3 := inj.1
  let deficit := calculateMonthlyOperatingDeficit pf3
  let sim1 : SimState :=
    if 0 < deficit ∧ pf3.cash_available < deficit then
      { simulation_ended := true,
        end_reason := some (.operatingDeficit deficit pf3.cash_available),
        total_additional_capital := inj.2.1 }
    else { sim with total_additional_capital := inj.2.1 }
  let refi :=
    if strat.enable_refinancing ∧ sim1.simulation_ended = false ∧
        shouldRefinance strat month then
      applyRefinancing base pf3
    else (pf3, [])
  let reinvest :=
    if strat.enable_reinvestment ∧ sim1.simulation_ended = false then
      applyReinvestment base strat refi.1 1000
    else (refi.1, [])
  (sim1, reinvest.1,
    createDetailedSnapshot reinvest.1 month refi.2 reinvest.2 inj.2.2 sim1)

/-- The month loop of `_run_monthly_simulation` from a given month, with the
number of remaining months; the loop breaks as soon as the run is terminated. -/
def runFrom (base : PropertyInvestment) (strat : StrategyConfig) :
    SimState → Portfolio → ℕ → ℕ → List SimulationSnapshot
  | _, _, _, 0 => []
  | sim, pf, month, remaining + 1 =>
      if sim.simulation_ended then []
      else
        (stepMonth base strat sim pf month).2.2 ::
          runFrom base strat (stepMonth base strat sim pf month).1
            (stepMonth base strat sim pf month).2.1 (month + 1) remaining

/-- `_run_monthly_simulation`: period-0 snapshot (with the initial purchase
event when property 0 was bought), then the month loop. -/
def runMonthlySimulation (base : PropertyInvestment) (strat : StrategyConfig) :
    List SimulationSnapshot :=
  let pf0 := (initializePortfolio base strat).1
  let sim0 := (initializePortfolio base strat).2
  let initialPurchases : List PropertyPurchase :=
    match pf0.properties with
    | [] => []
    | fp :: _ =>
        [{ property_id := fp.property_id, purchase_price := fp.purchase_price,
           cash_required := pf0.initial_cash_required,
           financing_type := fp.financing_type, loan_amount := fp.loan_amount }]
  createDetailedSnapshot pf0 0 [] initialPurchases [] sim0 ::
    runFrom base strat sim0 pf0 1 strat.simulation_months

/-- `simulate` (the snapshot filter of the source is the identity:
`_filter_snapshots_by_frequency` returns the monthly snapshots unchanged). -/
def simulate (base : PropertyInvestment) (strat : StrategyConfig) :
    List SimulationSnapshot :=
  runMonthlySimulation base strat


/-! ## Concrete scenarios used as witnesses and counterexamples -/

/-- A cash-financed profile whose gross rent covers expenses but whose
vacancy-adjusted rent does not: levies 950, rent 1000 gross / 900 effective. -/
def vacancyBase : PropertyInvestment := {
  acquisition_costs := {
    purchase_price := 100000, transfer_duty := 0, conveyancing_fees := 0,
    bond_registration := 0, furnishing_cost := some 0 },
  financing := {
    ltv_ratio := 0, financing_type := .cash, appreciation_rate := 0,
    interest_rate := none, loan_term_years := some 20 },
  operating := {
    monthly_rental_income := 1000, vacancy_rate := 1/10, monthly_levies := 950,
    property_management_fee_rate := 0, monthly_insurance := 0,
    monthly_maintenance_reserve := 0, monthly_furnishing_repair_costs := some 0 },
  strategy := { available_investment_amount := 100100 } }

/-- Cash-only strategy over three months, no reinvestment. -/
def vacancyStrat : StrategyConfig := {
  strategy_type := .cash_only, simulation_months := 3, enable_reinvestment := false }

/-- A leveraged profile at 0% leverage ratio (the engine labels the property
`0%_leverage` with a zero loan), refinancing every 2 months to 80% LTV, with
rent high enough to buy a second property in month 1. -/
def refiBase : PropertyInvestment := {
  acquisition_costs := {
    purchase_price := 1000000, transfer_duty := 0, conveyancing_fees := 0,
    bond_registration := 1000, furnishing_cost := some 0 },
  financing := {
    ltv_ratio := 1/2, financing_type := .leveraged, appreciation_rate := 0,
    interest_rate := some (12/100), loan_term_years := some 1 },
  operating := {
    monthly_rental_income := 1200000, vacancy_rate := 0, monthly_levies := 0,
    property_management_fee_rate := 0, monthly_insurance := 0,
    monthly_maintenance_reserve := 0, monthly_furnishing_repair_costs := some 0 },
  strategy := {
    available_investment_amount := 1002000, enable_refinancing := true,
    target_refinance_ltv := some (8/10) } }

/-- Leveraged strategy, cadence `int(12/6) = 2` months, reinvestment on. -/
def refiStrat : StrategyConfig := {
  strategy_type := .leveraged, simulation_months := 2, leverage_ratio := 0,
  cash_ratio := 1, leveraged_property_ratio := 1, cash_property_ratio := 0,
  first_property_type := .leveraged, enable_refinancing := true,
  refinance_frequency_years := 1/6, enable_reinvestment := true }

/-- A 50%-leveraged profile refinanced every month to 80% LTV: the loan jumps
from 500000 to 800000 at the first refinance. -/
def jumpBase : PropertyInvestment := {
  acquisition_costs := {
    purchase_price := 1000000, transfer_duty := 0, conveyancing_fees := 0,
    bond_registration := 1000, furnishing_cost := some 0 },
  financing := {
    ltv_ratio := 1/2, financing_type := .leveraged, appreciation_rate := 0,
    interest_rate := some (12/100), loan_term_years := some 1 },
  operating := {
    monthly_rental_income := 600000, vacancy_rate := 0, monthly_levies := 0,
    property_management_fee_rate := 0, monthly_insurance := 0,
    monthly_maintenance_reserve := 0, monthly_furnishing_repair_costs := some 0 },
  strategy := {
    available_investment_amount := 502000, enable_refinancing := true,
    target_refinance_ltv := some (8/10) } }

/-- Leveraged strategy at 50% leverage, refinancing every month, one month. -/
def jumpStrat : StrategyConfig := {
  strategy_type := .leveraged, simulation_months := 1, leverage_ratio := 1/2,
  first_property_type := .leveraged, enable_refinancing := true,
  refinance_frequency_years := 1/12, enable_reinvestment := false }

/-- A mixed strategy with equal 50/50 property-count targets. -/
def tieStrat : StrategyConfig := {
  strategy_type := .mixed, simulation_months := 12, leverage_ratio := 1/2,
  leveraged_property_ratio := 1/2, cash_property_ratio := 1/2,
  first_property_type := .leveraged }

/-- One leveraged property. -/
def tieLevProp : PropertyData := {
  property_id := 0, purchase_price := 100, current_value := 100,
  loan_amount := 50, monthly_payment := 1, financing_type := .leverage 50,
  months_owned := 0, annual_rental_income := 0, annual_expenses := 0,
  monthly_cashflow := 0, cost_basis := 100 }

/-- One cash property. -/
def tieCashProp : PropertyData := {
  tieLevProp with
    property_id := 1, financing_type := .cash,
    loan_amount := 0, monthly_payment := 0 }

/-- A ledger holding exactly one leveraged and one cash property, so both
fractions sit exactly on the 50% targets of `tieStrat` (a tie). -/
def tiePortfolio : Portfolio := {
  properties := [tieLevProp, tieCashProp], cash_available := 0,
  property_counter := 2, total_additional_capital_injected := 0,
  initial_cash_required := 0 }

/-- A cash-financed money-burning profile: no rent, levies 10000/month. -/
def burnBase : PropertyInvestment := {
  acquisition_costs := {
    purchase_price := 100000, transfer_duty := 0, conveyancing_fees := 0,
    bond_registration := 0, furnishing_cost := some 0 },
  financing := {
    ltv_ratio := 0, financing_type := .cash, appreciation_rate := 0,
    interest_rate := none, loan_term_years := some 20 },
  operating := {
    monthly_rental_income := 0, vacancy_rate := 0, monthly_levies := 10000,
    property_management_fee_rate := 0, monthly_insurance := 0,
    monthly_maintenance_reserve := 0, monthly_furnishing_repair_costs := some 0 },
  strategy := { available_investment_amount := 200000 } }

/-- Cash-only strategy with reinvestment enabled. -/
def burnStrat : StrategyConfig := {
  strategy_type := .cash_only, simulation_months := 12 }

/-- A portfolio with one burn property and exactly the cash for one more. -/
def burnPortfolio : Portfolio := {
  properties := [{
    property_id := 0, purchase_price := 100000, current_value := 100000,
    loan_amount := 0, monthly_payment := 0, financing_type := .cash,
    months_owned := 1, annual_rental_income := 0, annual_expenses := 120000,
    monthly_cashflow := -10000, cost_basis := 100000 }],
  cash_available := 100000, property_counter := 1,
  total_additional_capital_injected := 0, initial_cash_required := 100000 }

/-! ## Theorems -/

/-- **C8.**  For a cash-financed Investment Profile the derived monthly bond
payment is absent and the derived initial cash required equals the total
furnished acquisition cost: purchase price + transfer duty + conveyancing
fees + bond registration + furnishing cost. -/
theorem cash_profile_formulas (p : PropertyInvestment)
    (h : p.financing.financing_type = FinancingType.cash) :
    p.monthly_bond_payment = Except.ok none ∧
    p.initial_cash_required = p.acquisition_costs.total_furnished_cost ∧
    p.acquisition_costs.total_furnished_cost =
      p.acquisition_costs.purchase_price + p.acquisition_costs.transfer_duty +
        p.acquisition_costs.conveyancing_fees + p.acquisition_costs.bond_registration +
        orQ p.acquisition_costs.furnishing_cost 0 := by
  refine ⟨?_, ?_, ?_⟩
  · simp [PropertyInvestment.monthly_bond_payment, h]
  · simp [PropertyInvestment.initial_cash_required, h]
  · simp [PropertyAcquisitionCosts.total_furnished_cost,
      PropertyAcquisitionCosts.total_unfurnished_cost]

/-- Witness for C8 on the concrete cash profile `vacancyBase`. -/
theorem cash_profile_formulas_witness :
    vacancyBase.monthly_bond_payment = Except.ok none ∧
    vacancyBase.initial_cash_required = vacancyBase.acquisition_costs.total_furnished_cost ∧
    vacancyBase.acquisition_costs.total_furnished_cost =
      vacancyBase.acquisition_costs.purchase_price + vacancyBase.acquisition_costs.transfer_duty +
        vacancyBase.acquisition_costs.conveyancing_fees + vacancyBase.acquisition_costs.bond_registration +
        orQ vacancyBase.acquisition_costs.furnishing_cost 0 :=
  cash_profile_formulas vacancyBase rfl

/-- **C9.**  The engine is deterministic: `simulate` is a function of the
Investment Profile and Strategy Configuration alone, so structurally equal
inputs produce identical snapshot sequences. -/
theorem simulate_deterministic (b₁ b₂ : PropertyInvestment) (s₁ s₂ : StrategyConfig)
    (hb : b₁ = b₂) (hs : s₁ = s₂) : simulate b₁ s₁ = simulate b₂ s₂ := by
  subst hb; subst hs; rfl

/-- Witness for C9 on a concrete profile and strategy. -/
theorem simulate_deterministic_witness :
    simulate vacancyBase vacancyStrat = simulate vacancyBase vacancyStrat :=
  simulate_deterministic vacancyBase vacancyBase vacancyStrat vacancyStrat rfl rfl

/-- **C10.**  Negative cash is a reachable non-terminal state: because the
per-period sufficiency check compares cash against the gross-rent shortfall
while rent collection uses vacancy-adjusted rent, `vacancyBase` under
`vacancyStrat` reaches a snapshot (period 3) with negative cash and the
terminated flag still false. -/
theorem negative_cash_reachable_nonterminal :
    ∃ s ∈ simulate vacancyBase vacancyStrat,
      s.cash_available < 0 ∧ s.simulation_ended = false := by
  have h : ((simulate vacancyBase vacancyStrat).get? 3).map
      (fun s => (decide (s.cash_available < 0), s.simulation_ended)) =
      some (true, false) := by with_unfolding_all rfl
  cases hg : (simulate vacancyBase vacancyStrat).get? 3 with
  | none => rw [hg] at h; cases h
  | some s =>
      rw [hg] at h
      simp only [Option.map_some', Option.some.injEq, Prod.mk.injEq] at h
      exact ⟨s, List.get?_mem hg, of_decide_eq_true h.1, h.2⟩

/-- **C1 (counterexample).**  The claim resolves exact ties (equal deficits of
both fractions to their targets) toward leverage; the code resolves them
toward cash: with 50/50 targets and a ledger of one leveraged and one cash
property both deficits are 0, yet the next acquisition is cash-financed. -/
theorem mixed_tie_resolves_to_cash_cex :
    tieStrat.strategy_type = StrategyType.mixed ∧
    tiePortfolio.properties.length = 2 ∧
    (tiePortfolio.properties.filter (fun p => p.financing_type ≠ FinLabel.cash)).length = 1 ∧
    tieStrat.leveraged_property_ratio - (1 : ℚ) / 2 =
      tieStrat.cash_property_ratio - (1 : ℚ) / 2 ∧
    shouldUseLeverageForNextProperty tieStrat tiePortfolio = false := by
  refine ⟨rfl, rfl, by with_unfolding_all rfl, by with_unfolding_all rfl,
    by with_unfolding_all rfl⟩

/-- **C1 (amended).**  For a mixed-strategy portfolio that already owns at
least one property, the next acquisition is leveraged iff the leveraged
fraction of the ledger is *strictly* further below its target ratio than the
cash fraction is below its target ratio; exact ties resolve toward cash. -/
theorem mixed_financing_decision_strict (strat : StrategyConfig) (pf : Portfolio)
    (hmix : strat.strategy_type = StrategyType.mixed)
    (hne : pf.properties.length ≠ 0) :
    shouldUseLeverageForNextProperty strat pf = true ↔
      strat.cash_property_ratio -
          ((pf.properties.length -
            (pf.properties.filter (fun p => p.financing_type ≠ FinLabel.cash)).length : ℕ) : ℚ) /
            (pf.properties.length : ℚ) <
        strat.leveraged_property_ratio -
          (((pf.properties.filter (fun p => p.financing_type ≠ FinLabel.cash)).length : ℕ) : ℚ) /
            (pf.properties.length : ℚ) := by
  rw [shouldUseLeverageForNextProperty, hmix]
  simp [hne]

/-- Witness for C1 (amended) on the tie scenario: the strict comparison is
false there and indeed no leverage is chosen. -/
theorem mixed_financing_decision_strict_witness :
    shouldUseLeverageForNextProperty tieStrat tiePortfolio = true ↔
      tieStrat.cash_property_ratio -
          ((tiePortfolio.properties.length -
            (tiePortfolio.properties.filter (fun p => p.financing_type ≠ FinLabel.cash)).length : ℕ) : ℚ) /
            (tiePortfolio.properties.length : ℚ) <
        tieStrat.leveraged_property_ratio -
          (((tiePortfolio.properties.filter (fun p => p.financing_type ≠ FinLabel.cash)).length : ℕ) : ℚ) /
            (tiePortfolio.properties.length : ℚ) :=
  mixed_financing_decision_strict tieStrat tiePortfolio rfl (by with_unfolding_all decide)

/-- **C7 (counterexample).**  The claim says the acquisition loop also stops
when a further purchase would leave fewer than six months of cash coverage
against a negative aggregate cash flow; the code has no such guard: from
`burnPortfolio` (cash exactly one unit, every property burning 10000/month)
it still buys, ending with zero months of coverage. -/
theorem reinvestment_ignores_coverage_guard_cex :
    (nextPropertyPlan burnBase burnStrat burnPortfolio).2.2 ≤
        burnPortfolio.cash_available ∧
    (applyReinvestment burnBase burnStrat burnPortfolio 1000).2 ≠ [] ∧
    ((applyReinvestment burnBase burnStrat burnPortfolio 1000).1.properties.map
        (fun p => p.monthly_cashflow)).sum < 0 ∧
    (applyReinvestment burnBase burnStrat burnPortfolio 1000).1.cash_available <
      6 * -((applyReinvestment burnBase burnStrat burnPortfolio 1000).1.properties.map
        (fun p => p.monthly_cashflow)).sum := by
  refine ⟨by with_unfolding_all decide, by with_unfolding_all decide,
    by with_unfolding_all decide, by with_unfolding_all decide⟩

/-- **C7 (amended).**  The reinvestment loop stops buying exactly when cash
available is insufficient for the next property's total cash requirement;
no cash-coverage guard is applied. -/
theorem reinvestment_stops_iff_insufficient_cash (base : PropertyInvestment)
    (strat : StrategyConfig) (pf : Portfolio) (fuel : ℕ) :
    (applyReinvestment base strat pf (fuel + 1)).2 = [] ↔
      pf.cash_available < (nextPropertyPlan base strat pf).2.2 := by
  rw [applyReinvestment]
  split
  next h => simpa using not_lt.mpr h
  next h => simpa using lt_of_not_le h

/-- **C3.**  Capital-injection cadence: a monthly rule with start 1 and no end
fires in every period ≥ 1; a quarterly rule fires exactly at
`start, start+3, …` within `[start, end]` (or unbounded without an end); a
one-time rule with explicit trigger periods `[3, 7]` fires exactly in periods
3 and 7 — the firing predicate does not depend on the horizon at all. -/
theorem capital_injection_cadence (a : ℚ) (p start e : ℕ) (he : 0 < e) :
    (shouldInjectCapital {
        amount := a, frequency := .monthly, start_period := 1,
        end_period := none, specific_periods := none } p = true ↔ 1 ≤ p) ∧
    (shouldInjectCapital {
        amount := a, frequency := .quarterly, start_period := start,
        end_period := none, specific_periods := none } p = true ↔
      start ≤ p ∧ (p - start) % 3 = 0) ∧
    (shouldInjectCapital {
        amount := a, frequency := .quarterly, start_period := start,
        end_period := some e, specific_periods := none } p = true ↔
      start ≤ p ∧ p ≤ e ∧ (p - start) % 3 = 0) ∧
    (shouldInjectCapital {
        amount := a, frequency := .one_time, start_period := 1,
        end_period := none, specific_periods := some [3, 7] } p = true ↔
      p = 3 ∨ p = 7) := by
  refine ⟨?_, ?_, ?_, ?_⟩ <;> simp only [shouldInjectCapital] <;>
    simp [List.contains_cons, he.ne'] <;> omega

/-- Witness for C3 at amount 5, period 7, start 1, end 10. -/
theorem capital_injection_cadence_witness :
    0 < 10 ∧
    ((shouldInjectCapital {
        amount := 5, frequency := .monthly, start_period := 1,
        end_period := none, specific_periods := none } 7 = true ↔ 1 ≤ 7) ∧
    (shouldInjectCapital {
        amount := 5, frequency := .quarterly, start_period := 1,
        end_period := none, specific_periods := none } 7 = true ↔
      1 ≤ 7 ∧ (7 - 1) % 3 = 0) ∧
    (shouldInjectCapital {
        amount := 5, frequency := .quarterly, start_period := 1,
        end_period := some 10, specific_periods := none } 7 = true ↔
      1 ≤ 7 ∧ 7 ≤ 10 ∧ (7 - 1) % 3 = 0) ∧
    (shouldInjectCapital {
        amount := 5, frequency := .one_time, start_period := 1,
        end_period := none, specific_periods := some [3, 7] } 7 = true ↔
      7 = 3 ∨ 7 = 7)) :=
  ⟨by decide, capital_injection_cadence 5 7 1 10 (by decide)⟩

/-- A profile whose property-level deficit (expenses + debt service − gross
rent) is positive: rent 0, levies 100/month. -/
def deficitBase : PropertyInvestment := {
  acquisition_costs := {
    purchase_price := 1000, transfer_duty := 0, conveyancing_fees := 0,
    bond_registration := 0, furnishing_cost := some 0 },
  financing := {
    ltv_ratio := 0, financing_type := .cash, appreciation_rate := 0,
    interest_rate := none, loan_term_years := some 20 },
  operating := {
    monthly_rental_income := 0, vacancy_rate := 0, monthly_levies := 100,
    property_management_fee_rate := 0, monthly_insurance := 0,
    monthly_maintenance_reserve := 0, monthly_furnishing_repair_costs := some 0 },
  strategy := { available_investment_amount := 1050 } }

/-- Cash-only strategy used with `deficitBase`. -/
def deficitStrat : StrategyConfig := {
  strategy_type := .cash_only, simulation_months := 6, enable_reinvestment := false }

/-- A portfolio holding one `deficitBase`-style property and 50 in cash, so a
100/month deficit exceeds the cash on hand. -/
def deficitPortfolio : Portfolio := {
  properties := [{
    property_id := 0, purchase_price := 1000, current_value := 1000,
    loan_amount := 0, monthly_payment := 0, financing_type := .cash,
    months_owned := 1, annual_rental_income := 0, annual_expenses := 1200,
    monthly_cashflow := -100, cost_basis := 1000 }],
  cash_available := 150, property_counter := 1,
  total_additional_capital_injected := 0, initial_cash_required := 1000 }

/-- A live (not yet terminated) simulator state. -/
def liveState : SimState := {
  simulation_ended := false, end_reason := none, total_additional_capital := 0 }

/-- **C5.**  In a period entered with the run still live, the engine marks the
simulation terminated exactly when the total shortfall (over properties whose
gross period rent is below expenses plus debt service) is positive and
exceeds the cash available after operations and injections; the reason
records that shortfall and the available cash, the period's snapshot is still
emitted carrying the flag and reason, and no refinancing event or purchase
occurs in that period after termination. -/
theorem cash_sufficiency_termination (base : PropertyInvestment)
    (strat : StrategyConfig) (sim : SimState) (pf : Portfolio) (month : ℕ)
    (h : sim.simulation_ended = false) :
    let pf3 := (applyAdditionalCapitalInjections strat
      (applyMonthlyOperations base (applyAppreciation base pf))
      sim.total_additional_capital month).1
    let deficit := calculateMonthlyOperatingDeficit pf3
    let out := stepMonth base strat sim pf month
    (out.1.simulation_ended = true ↔ 0 < deficit ∧ pf3.cash_available < deficit) ∧
    out.2.2.simulation_ended = out.1.simulation_ended ∧
    out.2.2.end_reason = out.1.end_reason ∧
    (0 < deficit ∧ pf3.cash_available < deficit →
      out.1.end_reason = some (.operatingDeficit deficit pf3.cash_available) ∧
      out.2.2.refinancing_events = [] ∧
      out.2.2.property_purchases = []) := by
  simp only [stepMonth, createDetailedSnapshot]
  split_ifs <;> simp_all

/-- Witness for C5: one concrete live period in which the deficit (100)
exceeds available cash and the engine terminates. -/
theorem cash_sufficiency_termination_witness :
    let pf3 := (applyAdditionalCapitalInjections deficitStrat
      (applyMonthlyOperations deficitBase (applyAppreciation deficitBase deficitPortfolio))
      liveState.total_additional_capital 1).1
    let deficit := calculateMonthlyOperatingDeficit pf3
    let out := stepMonth deficitBase deficitStrat liveState deficitPortfolio 1
    (out.1.simulation_ended = true ↔ 0 < deficit ∧ pf3.cash_available < deficit) ∧
    out.2.2.simulation_ended = out.1.simulation_ended ∧
    out.2.2.end_reason = out.1.end_reason ∧
    (0 < deficit ∧ pf3.cash_available < deficit →
      out.1.end_reason = some (.operatingDeficit deficit pf3.cash_available) ∧
      out.2.2.refinancing_events = [] ∧
      out.2.2.property_purchases = []) :=
  cash_sufficiency_termination deficitBase deficitStrat liveState deficitPortfolio 1 rfl

/-- The month loop emits nothing once the run is terminated. -/
theorem runFrom_of_ended (base : PropertyInvestment) (strat : StrategyConfig)
    (r : ℕ) (sim : SimState) (pf : Portfolio) (m : ℕ)
    (h : sim.simulation_ended = true) : runFrom base strat sim pf m r = [] := by
  cases r with
  | zero => rfl
  | succ r => simp [runFrom, h]

/-- The snapshot built by a step carries exactly the step's updated flag. -/
theorem stepMonth_snapshot_flag (base : PropertyInvestment) (strat : StrategyConfig)
    (sim : SimState) (pf : Portfolio) (m : ℕ) :
    (stepMonth base strat sim pf m).2.2.simulation_ended =
      (stepMonth base strat sim pf m).1.simulation_ended := rfl

/-- The snapshot built by a step carries exactly the step's updated reason. -/
theorem stepMonth_snapshot_reason (base : PropertyInvestment) (strat : StrategyConfig)
    (sim : SimState) (pf : Portfolio) (m : ℕ) :
    (stepMonth base strat sim pf m).2.2.end_reason =
      (stepMonth base strat sim pf m).1.end_reason := rfl

/-- Within the month loop's output, a terminated snapshot is the last one. -/
theorem runFrom_ended_is_last (base : PropertyInvestment) (strat : StrategyConfig) :
    ∀ (r : ℕ) (sim : SimState) (pf : Portfolio) (m i : ℕ) (s : SimulationSnapshot),
      (runFrom base strat sim pf m r).get? i = some s → s.simulation_ended = true →
      i + 1 = (runFrom base strat sim pf m r).length := by
  intro r
  induction r with
  | zero => intro sim pf m i s hget _; cases hget
  | succ r ih =>
      intro sim pf m i s hget hs
      by_cases hsim : sim.simulation_ended = true
      · rw [runFrom_of_ended base strat _ _ _ _ hsim] at hget
        cases hget
      · rw [runFrom, if_neg hsim] at hget ⊢
        cases i with
        | zero =>
            simp only [List.get?] at hget
            cases hget
            have hflag := (stepMonth_snapshot_flag base strat sim pf m).symm.trans hs
            rw [runFrom_of_ended base strat _ _ _ _ hflag]
            rfl
        | succ i =>
            simp only [List.get?] at hget
            have := ih _ _ _ _ _ hget hs
            simp only [List.length_cons]
            omega

/-- In a full run, a terminated snapshot is the last snapshot. -/
theorem simulate_ended_is_last (base : PropertyInvestment) (strat : StrategyConfig)
    (i : ℕ) (s : SimulationSnapshot)
    (hget : (simulate base strat).get? i = some s) (hs : s.simulation_ended = true) :
    i + 1 = (simulate base strat).length := by
  rw [simulate, runMonthlySimulation] at hget ⊢
  cases i with
  | zero =>
      simp only [List.get?] at hget
      cases hget
      rw [runFrom_of_ended base strat _ _ _ _ hs]
      rfl
  | succ i =>
      simp only [List.get?] at hget
      have := runFrom_ended_is_last base strat _ _ _ _ _ _ hget hs
      simp only [List.length_cons]
      omega

/-- **C6.**  Termination permanence: once a snapshot in a run has its
terminated flag set, every later snapshot of that run (there are none — the
loop stops) is also terminated with the same reason. -/
theorem termination_permanence (base : PropertyInvestment) (strat : StrategyConfig)
    (i j : ℕ) (s t : SimulationSnapshot) (hij : i ≤ j)
    (hi : (simulate base strat).get? i = some s)
    (hj : (simulate base strat).get? j = some t)
    (hs : s.simulation_ended = true) :
    t.simulation_ended = true ∧ t.end_reason = s.end_reason := by
  have hlast := simulate_ended_is_last base strat i s hi hs
  have hjlt : j < (simulate base strat).length := by
    obtain ⟨h, -⟩ := List.get?_eq_some.mp hj
    exact h
  have hji : j = i := by omega
  subst hji
  rw [hi] at hj
  cases hj
  exact ⟨hs, rfl⟩

/-- A profile that cannot afford its first property. -/
def brokeBase : PropertyInvestment := {
  acquisition_costs := {
    purchase_price := 1000, transfer_duty := 0, conveyancing_fees := 0,
    bond_registration := 0, furnishing_cost := some 0 },
  financing := {
    ltv_ratio := 0, financing_type := .cash, appreciation_rate := 0,
    interest_rate := none, loan_term_years := some 20 },
  operating := {
    monthly_rental_income := 10, vacancy_rate := 0, monthly_levies := 0,
    property_management_fee_rate := 0, monthly_insurance := 0,
    monthly_maintenance_reserve := 0, monthly_furnishing_repair_costs := some 0 },
  strategy := { available_investment_amount := 0 } }

/-- Two-month cash-only strategy used with `brokeBase`. -/
def brokeStrat : StrategyConfig := {
  strategy_type := .cash_only, simulation_months := 2 }

/-- Witness for C6 on a run that terminates at initialization. -/
theorem termination_permanence_witness :
    ((simulate brokeBase brokeStrat).getD 0 default).simulation_ended = true ∧
    ((simulate brokeBase brokeStrat).getD 0 default).end_reason =
      ((simulate brokeBase brokeStrat).getD 0 default).end_reason :=
  termination_permanence brokeBase brokeStrat 0 0 _ _ (le_refl 0)
    (by with_unfolding_all rfl) (by with_unfolding_all rfl)
    (by with_unfolding_all rfl)

/-- A fired per-property refinance always clears the 10000 extraction bar. -/
theorem refinanceProp_extracted (base : PropertyInvestment) (p : PropertyData)
    (ev : RefinancingEvent) (h : (refinanceProp base p).2.1 = some ev) :
    10000 < ev.cash_extracted := by
  simp only [refinanceProp] at h
  split_ifs at h with h1 h2 h3
  all_goals simp_all
  all_goals (subst h; simpa using h2)

/-- Every event from `_apply_refinancing`'s property fold clears the bar. -/
theorem refinanceList_extracted (base : PropertyInvestment) :
    ∀ (props : List PropertyData) (ev : RefinancingEvent),
      ev ∈ (refinanceList base props).2.1 → 10000 < ev.cash_extracted := by
  intro props
  induction props with
  | nil => intro ev h; cases h
  | cons p rest ih =>
      intro ev h
      rw [refinanceList] at h
      rcases List.mem_append.mp h with h | h
      · rcases Option.mem_toList.mp h with hsome
        exact refinanceProp_extracted base p ev hsome
      · exact ih ev h

/-- Every event emitted by `_apply_refinancing` clears the bar. -/
theorem applyRefinancing_extracted (base : PropertyInvestment) (pf : Portfolio)
    (ev : RefinancingEvent) (h : ev ∈ (applyRefinancing base pf).2) :
    10000 < ev.cash_extracted :=
  refinanceList_extracted base pf.properties ev h

/-- The period recorded on a step's snapshot is the month being stepped. -/
theorem stepMonth_snapshot_period (base : PropertyInvestment) (strat : StrategyConfig)
    (sim : SimState) (pf : Portfolio) (m : ℕ) :
    (stepMonth base strat sim pf m).2.2.period = m := rfl

/-- A refinancing event in a step's snapshot forces refinancing to be enabled,
the month to pass the cadence test, and the extraction to clear the bar. -/
theorem stepMonth_refi_event (base : PropertyInvestment) (strat : StrategyConfig)
    (sim : SimState) (pf : Portfolio) (m : ℕ) (ev : RefinancingEvent)
    (h : ev ∈ (stepMonth base strat sim pf m).2.2.refinancing_events) :
    strat.enable_refinancing = true ∧ shouldRefinance strat m = true ∧
      10000 < ev.cash_extracted := by
  simp only [stepMonth, createDetailedSnapshot] at h
  split_ifs at h with h1 h2 h3
  · exact h2.2.1.elim
  · simp at h
  · exact ⟨h3.1, h3.2.2, applyRefinancing_extracted base _ ev h⟩
  · simp at h

/-- Along the month loop, every refinancing event sits in a snapshot whose
period passes the cadence test, with refinancing enabled and the extraction
over the bar. -/
theorem runFrom_refi_events (base : PropertyInvestment) (strat : StrategyConfig) :
    ∀ (r : ℕ) (sim : SimState) (pf : Portfolio) (m : ℕ)
      (snap : SimulationSnapshot), snap ∈ runFrom base strat sim pf m r →
      ∀ ev ∈ snap.refinancing_events,
        strat.enable_refinancing = true ∧
        (snap.period : ℤ) % refinanceFreqMonths strat = 0 ∧
        10000 < ev.cash_extracted := by
  intro r
  induction r with
  | zero => intro sim pf m snap hsnap; cases hsnap
  | succ r ih =>
      intro sim pf m snap hsnap ev hev
      rw [runFrom] at hsnap
      by_cases hsim : sim.simulation_ended = true
      · rw [if_pos hsim] at hsnap; cases hsnap
      · rw [if_neg hsim] at hsnap
        rcases List.mem_cons.mp hsnap with hhd | htl
        · subst hhd
          obtain ⟨he, hcad, hbar⟩ := stepMonth_refi_event base strat sim pf m ev hev
          refine ⟨he, ?_, hbar⟩
          rw [stepMonth_snapshot_period]
          rw [shouldRefinance] at hcad
          exact beq_iff_eq.mp hcad
        · exact ih _ _ _ snap htl ev hev

/-- **C2 (amended).**  Refinancing eligibility is a single portfolio-wide
cadence test: a refinancing event occurs in period p only if refinancing is
enabled, p is divisible by the cadence converted to months
(`int(refinance_frequency_years*12)`), and the cash extracted exceeds the
10000 minimum-extraction bar.  Eligibility is not tracked per property: a
property bought mid-run may be refinanced sooner than the cadence after its
purchase, and a non-cash-labelled property with zero outstanding balance is
refinanced rather than skipped. -/
theorem refinancing_event_constraints (base : PropertyInvestment)
    (strat : StrategyConfig) (snap : SimulationSnapshot)
    (hsnap : snap ∈ simulate base strat) (ev : RefinancingEvent)
    (hev : ev ∈ snap.refinancing_events) :
    strat.enable_refinancing = true ∧
    (snap.period : ℤ) % refinanceFreqMonths strat = 0 ∧
    10000 < ev.cash_extracted := by
  rw [simulate, runMonthlySimulation] at hsnap
  rcases List.mem_cons.mp hsnap with hhd | htl
  · subst hhd
    cases hev
  · exact runFrom_refi_events base strat _ _ _ _ snap htl ev hev

/-- Witness for C2 (amended): the period-2 snapshot of the `refiBase` run
contains a refinancing event, and the theorem's constraints hold for it. -/
theorem refinancing_event_constraints_witness :
    refiStrat.enable_refinancing = true ∧
    ((((simulate refiBase refiStrat).getD 2 default).period : ℤ) %
      refinanceFreqMonths refiStrat = 0) ∧
    10000 < (((simulate refiBase refiStrat).getD 2
      default).refinancing_events.getD 0 default).cash_extracted := by
  have hsnap : (simulate refiBase refiStrat).get? 2 =
      some ((simulate refiBase refiStrat).getD 2 default) := by
    with_unfolding_all rfl
  have hev : (((simulate refiBase refiStrat).getD 2 default).refinancing_events).get? 0 =
      some ((((simulate refiBase refiStrat).getD 2
        default).refinancing_events).getD 0 default) := by
    with_unfolding_all rfl
  exact refinancing_event_constraints refiBase refiStrat _ (List.get?_mem hsnap) _
    (List.get?_mem hev)

/-- **C2 (counterexample).**  In the `refiBase` run the cadence is 2 months,
property 1 is purchased in period 1 and already refinanced in period 2 (one
period after purchase, less than the cadence), and both refinanced properties
had an outstanding loan balance of zero. -/
theorem refinancing_cadence_and_zero_debt_cex :
    refinanceFreqMonths refiStrat = 2 ∧
    ((simulate refiBase refiStrat).getD 1 default).property_purchases.map
      (fun e => e.property_id) = [1] ∧
    ((simulate refiBase refiStrat).getD 2 default).refinancing_events.map
      (fun e => (e.property_id, e.old_loan_amount)) = [(0, 0), (1, 0)] ∧
    ((simulate refiBase refiStrat).getD 2 default).period -
      ((simulate refiBase refiStrat).getD 1 default).period = 1 := by
  refine ⟨by with_unfolding_all rfl, by with_unfolding_all rfl,
    by with_unfolding_all rfl, by with_unfolding_all rfl⟩

/-- The per-property loan invariant maintained by the engine while refinancing
is disabled: a nonnegative balance whose period interest never exceeds the
scheduled payment. -/
def GoodLoan (base : PropertyInvestment) (p : PropertyData) : Prop :=
  0 ≤ p.loan_amount ∧
    p.loan_amount * (orQ base.financing.interest_rate 0.105 / 12) ≤ p.monthly_payment

/-- Every property of a ledger satisfies the loan invariant. -/
def GoodProps (base : PropertyInvestment) (l : List PropertyData) : Prop :=
  ∀ p ∈ l, GoodLoan base p

/-- `x or 0.105` is positive whenever the stored rate is not negative. -/
theorem orQ_rate_pos (x? : Option ℚ) (hr : ∀ x, x? = some x → 0 ≤ x) :
    0 < orQ x? (0.105 : ℚ) := by
  cases x? with
  | none => norm_num [orQ]
  | some x =>
      have hx := hr x rfl
      rw [orQ]
      split_ifs with h0
      · norm_num
      · exact lt_of_le_of_ne hx (Ne.symm h0)

/-- `x or d` is positive for a positive default. -/
theorem orN_pos (x? : Option ℕ) (d : ℕ) (hd : 0 < d) : 0 < orN x? d := by
  cases x? with
  | none => simpa [orN]
  | some k =>
      rw [orN]
      split_ifs with h
      · exact hd
      · omega

/-- The fixed-payment formula never pays less than one period of interest on
the full principal. -/
theorem pmtFormula_ge_interest (L r : ℚ) (n : ℕ) (hL : 0 ≤ L) (hr : 0 < r)
    (hn : n ≠ 0) : L * r ≤ PropertyInvestment.pmtFormula L r n := by
  rw [PropertyInvestment.pmtFormula, if_neg hr.ne']
  have hA : 1 < (1 + r) ^ n := one_lt_pow₀ (by linarith) hn
  have hden : 0 < (1 + r) ^ n - 1 := by linarith
  rw [le_div_iff₀ hden]
  nlinarith [mul_nonneg hL hr.le]

/-- `_calculate_monthly_payment` covers one period of interest on the loan. -/
theorem calculateMonthlyPayment_ge_interest (base : PropertyInvestment) (L : ℚ)
    (hr : ∀ x, base.financing.interest_rate = some x → 0 ≤ x) (hL : 0 ≤ L) :
    L * (orQ base.financing.interest_rate 0.105 / 12) ≤
      calculateMonthlyPayment base L := by
  rw [calculateMonthlyPayment]
  split_ifs with h
  · have hL0 : L = 0 := le_antisymm h hL
    simp [hL0]
  · exact pmtFormula_ge_interest L _ _ hL
      (div_pos (orQ_rate_pos _ hr) (by norm_num))
      (Nat.mul_ne_zero (orN_pos base.financing.loan_term_years 20 (by norm_num)).ne'
        (by norm_num))

/-- The inline payment computation of `_apply_reinvestment` covers one period
of interest on the loan. -/
theorem buyPayment_ge_interest (base : PropertyInvestment) (L : ℚ)
    (hr : ∀ x, base.financing.interest_rate = some x → 0 ≤ x) (hL : 0 ≤ L) :
    L * (orQ base.financing.interest_rate 0.105 / 12) ≤
      (if 0 < L then
        PropertyInvestment.pmtFormula L (orQ base.financing.interest_rate 0.105 / 12)
          (orN base.financing.loan_term_years 20 * 12)
      else 0) := by
  split_ifs with h
  · exact pmtFormula_ge_interest L _ _ hL
      (div_pos (orQ_rate_pos _ hr) (by norm_num))
      (Nat.mul_ne_zero (orN_pos base.financing.loan_term_years 20 (by norm_num)).ne'
        (by norm_num))
  · have hL0 : L = 0 := le_antisymm (not_lt.mp h) hL
    simp [hL0]

/-- One month of amortization keeps the invariant, never increases the
balance, and leaves the scheduled payment unchanged. -/
theorem amortizeProp_spec (base : PropertyInvestment) (p : PropertyData)
    (hr : ∀ x, base.financing.interest_rate = some x → 0 ≤ x)
    (hp : GoodLoan base p) :
    GoodLoan base (amortizeProp base p) ∧
      (amortizeProp base p).loan_amount ≤ p.loan_amount ∧
      (amortizeProp base p).monthly_payment = p.monthly_payment := by
  have hrp : 0 < orQ base.financing.interest_rate 0.105 / 12 :=
    div_pos (orQ_rate_pos _ hr) (by norm_num)
  obtain ⟨hnn, hint⟩ := hp
  rw [GoodLoan, amortizeProp]
  split_ifs with hc
  · simp only
    have hprin : 0 ≤ min (p.monthly_payment -
        p.loan_amount * (orQ base.financing.interest_rate 0.105 / 12)) p.loan_amount :=
      le_min (by linarith) hnn
    have hle : 0 ⊔ (p.loan_amount - min (p.monthly_payment -
        p.loan_amount * (orQ base.financing.interest_rate 0.105 / 12)) p.loan_amount) ≤
        p.loan_amount := max_le hnn (by linarith)
    refine ⟨⟨le_max_left 0 _, ?_⟩, hle, trivial⟩
    calc (0 ⊔ (p.loan_amount - min (p.monthly_payment -
          p.loan_amount * (orQ base.financing.interest_rate 0.105 / 12)) p.loan_amount)) *
          (orQ base.financing.interest_rate 0.105 / 12)
        ≤ p.loan_amount * (orQ base.financing.interest_rate 0.105 / 12) :=
          mul_le_mul_of_nonneg_right hle hrp.le
      _ ≤ p.monthly_payment := hint
  · exact ⟨⟨hnn, hint⟩, le_refl _, rfl⟩

/-- Appreciation does not touch the loan or the payment. -/
theorem appreciateProp_loan (base : PropertyInvestment) (p : PropertyData) :
    (appreciateProp base p).loan_amount = p.loan_amount ∧
      (appreciateProp base p).monthly_payment = p.monthly_payment := ⟨rfl, rfl⟩

/-- Capital injections never touch the property ledger. -/
theorem injectList_properties (m : ℕ) :
    ∀ (rules : List AdditionalCapitalInjection) (pf : Portfolio) (t : ℚ),
      (injectList m rules pf t).1.properties = pf.properties := by
  intro rules
  induction rules with
  | nil => intro pf t; rfl
  | cons cfg rest ih =>
      intro pf t
      rw [injectList]
      split_ifs with h
      · exact ih _ _
      · exact ih _ _

/-- The loan planned for the next acquisition is never negative. -/
theorem nextPropertyPlan_loan_nonneg (base : PropertyInvestment)
    (strat : StrategyConfig) (pf : Portfolio)
    (h3 : 0 ≤ base.acquisition_costs.purchase_price)
    (h4 : 0 ≤ strat.leverage_ratio) :
    0 ≤ (nextPropertyPlan base strat pf).2.1 := by
  rw [nextPropertyPlan]
  split_ifs with h
  · simpa using mul_nonneg h3 h4
  · simp

/-- A purchase by `_apply_reinvestment` appends one property satisfying the
loan invariant. -/
theorem buyNextProperty_props (base : PropertyInvestment) (strat : StrategyConfig)
    (pf : Portfolio)
    (hr : ∀ x, base.financing.interest_rate = some x → 0 ≤ x)
    (h3 : 0 ≤ base.acquisition_costs.purchase_price)
    (h4 : 0 ≤ strat.leverage_ratio) :
    ∃ q, (buyNextProperty base strat pf).1.properties = pf.properties ++ [q] ∧
      GoodLoan base q := by
  refine ⟨_, rfl, ?_, ?_⟩
  · exact nextPropertyPlan_loan_nonneg base strat pf h3 h4
  · exact buyPayment_ge_interest base _ hr
      (nextPropertyPlan_loan_nonneg base strat pf h3 h4)

/-- The reinvestment loop only appends properties satisfying the invariant. -/
theorem applyReinvestment_props (base : PropertyInvestment) (strat : StrategyConfig)
    (hr : ∀ x, base.financing.interest_rate = some x → 0 ≤ x)
    (h3 : 0 ≤ base.acquisition_costs.purchase_price)
    (h4 : 0 ≤ strat.leverage_ratio) :
    ∀ (fuel : ℕ) (pf : Portfolio),
      ∃ tail, (applyReinvestment base strat pf fuel).1.properties =
          pf.properties ++ tail ∧ ∀ q ∈ tail, GoodLoan base q := by
  intro fuel
  induction fuel with
  | zero => intro pf; exact ⟨[], by simp [applyReinvestment], by simp⟩
  | succ fuel ih =>
      intro pf
      rw [applyReinvestment]
      split_ifs with h
      · obtain ⟨q, hq, hgood⟩ := buyNextProperty_props base strat pf hr h3 h4
        obtain ⟨tail, htail, htgood⟩ := ih (buyNextProperty base strat pf).1
        refine ⟨[q] ++ tail, ?_, ?_⟩
        · rw [htail, hq, List.append_assoc]
        · intro p hp
          rcases List.mem_append.mp hp with hp | hp
          · rw [List.mem_singleton.mp hp]; exact hgood
          · exact htgood p hp
      · exact ⟨[], by simp, by simp⟩

/-- Later-state dominance of property ledgers: the ledger only grows, and at
every existing index the loan balance has not increased. -/
def LoanDom (a b : List PropertyData) : Prop :=
  a.length ≤ b.length ∧
    ∀ (k : ℕ) (ha : k < a.length) (hb : k < b.length),
      (b.get ⟨k, hb⟩).loan_amount ≤ (a.get ⟨k, ha⟩).loan_amount

theorem loanDom_refl (a : List PropertyData) : LoanDom a a :=
  ⟨le_refl _, fun _ _ _ => le_refl _⟩

theorem loanDom_trans {a b c : List PropertyData} (hab : LoanDom a b)
    (hbc : LoanDom b c) : LoanDom a c := by
  refine ⟨hab.1.trans hbc.1, fun k ha hc => ?_⟩
  have hb : k < b.length := lt_of_lt_of_le ha hab.1
  exact (hbc.2 k hb hc).trans (hab.2 k ha hb)

/-- The snapshot of a step carries the step's final ledger. -/
theorem stepMonth_snapshot_props (base : PropertyInvestment) (strat : StrategyConfig)
    (sim : SimState) (pf : Portfolio) (m : ℕ) :
    (stepMonth base strat sim pf m).2.2.properties =
      (stepMonth base strat sim pf m).2.1.properties := rfl

/-- With refinancing disabled, one step maps each existing property through
appreciation and amortization and appends invariant-preserving purchases. -/
theorem stepMonth_props (base : PropertyInvestment) (strat : StrategyConfig)
    (sim : SimState) (pf : Portfolio) (m : ℕ)
    (h1 : strat.enable_refinancing = false)
    (hr : ∀ x, base.financing.interest_rate = some x → 0 ≤ x)
    (h3 : 0 ≤ base.acquisition_costs.purchase_price)
    (h4 : 0 ≤ strat.leverage_ratio) :
    ∃ tail,
      (stepMonth base strat sim pf m).2.1.properties =
        pf.properties.map (fun p => amortizeProp base (appreciateProp base p)) ++ tail ∧
      ∀ q ∈ tail, GoodLoan base q := by
  simp only [stepMonth, h1, applyAdditionalCapitalInjections, Bool.false_eq_true,
    false_and, if_false]
  have hbaseprops :
      (injectList m (strat.additional_capital_injections.getD [])
        (applyMonthlyOperations base (applyAppreciation base pf))
        sim.total_additional_capital).1.properties =
        pf.properties.map (fun p => amortizeProp base (appreciateProp base p)) := by
    rw [injectList_properties]
    simp [applyMonthlyOperations, applyAppreciation, List.map_map, Function.comp_def]
  split_ifs with h5 h6 h7 <;>
    first
      | exact absurd (And.right ‹_ ∧ False›) not_false
      | (obtain ⟨tail, htail, hgood⟩ := applyReinvestment_props base strat hr h3 h4 1000 _
         exact ⟨tail, by rw [htail, hbaseprops], hgood⟩)
      | exact ⟨[], by rw [List.append_nil]; exact hbaseprops, by simp⟩

/-- With refinancing disabled, one step preserves `GoodProps` and dominates
the previous ledger. -/
theorem stepMonth_dom (base : PropertyInvestment) (strat : StrategyConfig)
    (sim : SimState) (pf : Portfolio) (m : ℕ)
    (h1 : strat.enable_refinancing = false)
    (hr : ∀ x, base.financing.interest_rate = some x → 0 ≤ x)
    (h3 : 0 ≤ base.acquisition_costs.purchase_price)
    (h4 : 0 ≤ strat.leverage_ratio)
    (hpf : GoodProps base pf.properties) :
    LoanDom pf.properties (stepMonth base strat sim pf m).2.1.properties ∧
      GoodProps base (stepMonth base strat sim pf m).2.1.properties := by
  obtain ⟨tail, htail, hgood⟩ := stepMonth_props base strat sim pf m h1 hr h3 h4
  rw [htail]
  have hmapgood : GoodProps base
      (pf.properties.map (fun p => amortizeProp base (appreciateProp base p))) := by
    intro q hq
    obtain ⟨p, hp, rfl⟩ := List.mem_map.mp hq
    exact (amortizeProp_spec base (appreciateProp base p) hr (hpf p hp)).1
  refine ⟨⟨?_, ?_⟩, ?_⟩
  · simp [Nat.le_add_right pf.properties.length tail.length]
  · intro k ha hb
    have hb' : k < (pf.properties.map
        (fun p => amortizeProp base (appreciateProp base p))).length := by
      simpa using ha
    rw [List.get_eq_getElem, List.getElem_append_left hb', List.getElem_map]
    rw [List.get_eq_getElem]
    have hq : GoodLoan base (pf.properties[k]) := hpf _ (List.getElem_mem ha)
    exact (amortizeProp_spec base (appreciateProp base (pf.properties[k])) hr hq).2.1
  · intro q hq
    rcases List.mem_append.mp hq with hq | hq
    · exact hmapgood q hq
    · exact hgood q hq

/-- Along the month loop with refinancing disabled, every emitted snapshot's
ledger dominates the entry ledger and satisfies the invariant, and snapshots
pairwise dominate in order. -/
theorem runFrom_dom (base : PropertyInvestment) (strat : StrategyConfig)
    (h1 : strat.enable_refinancing = false)
    (hr : ∀ x, base.financing.interest_rate = some x → 0 ≤ x)
    (h3 : 0 ≤ base.acquisition_costs.purchase_price)
    (h4 : 0 ≤ strat.leverage_ratio) :
    ∀ (r : ℕ) (sim : SimState) (pf : Portfolio) (m : ℕ),
      GoodProps base pf.properties →
      (∀ snap ∈ runFrom base strat sim pf m r,
        LoanDom pf.properties snap.properties ∧ GoodProps base snap.properties) ∧
      (runFrom base strat sim pf m r).Pairwise
        (fun s t => LoanDom s.properties t.properties) := by
  intro r
  induction r with
  | zero =>
      intro sim pf m _
      exact ⟨fun snap h => absurd h (List.not_mem_nil snap), List.Pairwise.nil⟩
  | succ r ih =>
      intro sim pf m hpf
      rw [runFrom]
      split_ifs with hsim
      · exact ⟨fun snap h => absurd h (List.not_mem_nil snap), List.Pairwise.nil⟩
      · obtain ⟨hdom, hgood⟩ := stepMonth_dom base strat sim pf m h1 hr h3 h4 hpf
        obtain ⟨hmem, hpw⟩ := ih (stepMonth base strat sim pf m).1
          (stepMonth base strat sim pf m).2.1 (m + 1) hgood
        constructor
        · intro snap hsnap
          rcases List.mem_cons.mp hsnap with hhd | htl
          · subst hhd
            rw [stepMonth_snapshot_props]
            exact ⟨hdom, hgood⟩
          · obtain ⟨hd2, hg2⟩ := hmem snap htl
            exact ⟨loanDom_trans hdom hd2, hg2⟩
        · rw [List.pairwise_cons]
          refine ⟨fun t ht => ?_, hpw⟩
          rw [stepMonth_snapshot_props]
          exact (hmem t ht).1

/-- The initial ledger (zero or one property) satisfies the invariant. -/
theorem initializePortfolio_good (base : PropertyInvestment) (strat : StrategyConfig)
    (hr : ∀ x, base.financing.interest_rate = some x → 0 ≤ x)
    (h3 : 0 ≤ base.acquisition_costs.purchase_price)
    (h4 : 0 ≤ strat.leverage_ratio) :
    GoodProps base (initializePortfolio base strat).1.properties := by
  have hloan : 0 ≤ base.acquisition_costs.purchase_price * strat.leverage_ratio :=
    mul_nonneg h3 h4
  rw [initializePortfolio]
  cases hst : strat.strategy_type
  case mixed => 
    cases hft : strat.first_property_type <;> (dsimp only; split_ifs) <;>
      first
        | (intro p hp; exact absurd hp (List.not_mem_nil p))
        | (intro p hp
           rw [List.mem_singleton.mp hp]
           exact ⟨le_refl 0, by simp⟩)
        | (intro p hp
           rw [List.mem_singleton.mp hp]
           exact ⟨hloan, calculateMonthlyPayment_ge_interest base _ hr hloan⟩)
  all_goals (dsimp only; split_ifs) <;>
    first
      | (intro p hp; exact absurd hp (List.not_mem_nil p))
      | (intro p hp
         rw [List.mem_singleton.mp hp]
         exact ⟨le_refl 0, by simp⟩)
      | (intro p hp
         rw [List.mem_singleton.mp hp]
         exact ⟨hloan, calculateMonthlyPayment_ge_interest base _ hr hloan⟩)

/-- Across a whole run with refinancing disabled, all snapshots satisfy the
invariant and pairwise dominate in order. -/
theorem simulate_dom (base : PropertyInvestment) (strat : StrategyConfig)
    (h1 : strat.enable_refinancing = false)
    (hr : ∀ x, base.financing.interest_rate = some x → 0 ≤ x)
    (h3 : 0 ≤ base.acquisition_costs.purchase_price)
    (h4 : 0 ≤ strat.leverage_ratio) :
    (∀ snap ∈ simulate base strat, GoodProps base snap.properties) ∧
      (simulate base strat).Pairwise
        (fun s t => LoanDom s.properties t.properties) := by
  have hinit := initializePortfolio_good base strat hr h3 h4
  obtain ⟨hmem, hpw⟩ := runFrom_dom base strat h1 hr h3 h4 strat.simulation_months
    (initializePortfolio base strat).2 (initializePortfolio base strat).1 1 hinit
  rw [simulate, runMonthlySimulation]
  constructor
  · intro snap hsnap
    rcases List.mem_cons.mp hsnap with hhd | htl
    · subst hhd; exact hinit
    · exact (hmem snap htl).2
  · rw [List.pairwise_cons]
    exact ⟨fun t ht => (hmem t ht).1, hpw⟩

/-- **C4 (counterexample).**  As stated the invariant fails: with refinancing
enabled, the 50%-leveraged property of `jumpBase` has its outstanding balance
raised from 500000 to 800000 by the period-1 refinance, so the balance across
successive snapshots is not monotonically non-increasing. -/
theorem loan_increases_under_refinancing_cex :
    ((simulate jumpBase jumpStrat).getD 0 default).properties.map
      (fun p => p.loan_amount) = [500000] ∧
    ((simulate jumpBase jumpStrat).getD 0 default).properties.map
      (fun p => p.financing_type) = [FinLabel.leverage 50] ∧
    ((simulate jumpBase jumpStrat).getD 1 default).properties.map
      (fun p => p.loan_amount) = [800000] ∧
    (500000 : ℚ) < 800000 := by
  refine ⟨by with_unfolding_all rfl, by with_unfolding_all rfl,
    by with_unfolding_all rfl, by norm_num⟩

/-- **C4 (amended).**  In every run with refinancing disabled (and a sanely
signed profile: nonnegative stored interest rate, purchase price and leverage
ratio), every property's outstanding loan balance is monotonically
non-increasing across successive snapshots and never goes below 0; with
refinancing enabled, a refinance may raise the balance (and only then). -/
theorem loan_balances_monotone_without_refinancing (base : PropertyInvestment)
    (strat : StrategyConfig)
    (h1 : strat.enable_refinancing = false)
    (hr : ∀ x, base.financing.interest_rate = some x → 0 ≤ x)
    (h3 : 0 ≤ base.acquisition_costs.purchase_price)
    (h4 : 0 ≤ strat.leverage_ratio)
    (i j : ℕ) (s t : SimulationSnapshot) (hij : i ≤ j)
    (hi : (simulate base strat).get? i = some s)
    (hj : (simulate base strat).get? j = some t)
    (k : ℕ) (hks : k < s.properties.length) (hkt : k < t.properties.length) :
    (t.properties.get ⟨k, hkt⟩).loan_amount ≤
      (s.properties.get ⟨k, hks⟩).loan_amount ∧
    0 ≤ (t.properties.get ⟨k, hkt⟩).loan_amount := by
  obtain ⟨hall, hpw⟩ := simulate_dom base strat h1 hr h3 h4
  have hnn : 0 ≤ (t.properties.get ⟨k, hkt⟩).loan_amount :=
    ((hall t (List.get?_mem hj)) _ (List.get_mem _ _ _)).1
  rcases lt_or_eq_of_le hij with hlt | heq
  · obtain ⟨hilen, hgs⟩ := List.get?_eq_some.mp hi
    obtain ⟨hjlen, hgt⟩ := List.get?_eq_some.mp hj
    rw [List.pairwise_iff_get] at hpw
    have hdom := hpw ⟨i, hilen⟩ ⟨j, hjlen⟩ hlt
    rw [hgs, hgt] at hdom
    exact ⟨hdom.2 k hks hkt, hnn⟩
  · subst heq
    rw [hi] at hj
    cases hj
    exact ⟨le_refl _, hnn⟩

/-- Witness for C4 (amended) on the refinancing-free `vacancyBase` run,
comparing property 0 between periods 0 and 1. -/
theorem loan_balances_monotone_witness :
    ((((simulate vacancyBase vacancyStrat).getD 1 default).properties.get
        ⟨0, by with_unfolding_all decide⟩).loan_amount ≤
      (((simulate vacancyBase vacancyStrat).getD 0 default).properties.get
        ⟨0, by with_unfolding_all decide⟩).loan_amount) ∧
    0 ≤ (((simulate vacancyBase vacancyStrat).getD 1 default).properties.get
        ⟨0, by with_unfolding_all decide⟩).loan_amount :=
  loan_balances_monotone_without_refinancing vacancyBase vacancyStrat rfl
    (fun x h => Option.noConfusion h) (by with_unfolding_all decide)
    (by with_unfolding_all decide) 0 1 _ _ (by omega)
    (by with_unfolding_all rfl) (by with_unfolding_all rfl) 0
    (by with_unfolding_all decide) (by with_unfolding_all decide)

end PropertyCalc
